import Mathlib

/-!
Shallow embedding of `LAHSA_Dash.py`, the single source file of the
LAHSA PIT bed-utilization dashboard.

The program loads a bed-records table (`df`) and a SPA boundary table
(`spa_geo`), resolves raw SPA codes to region names through the fixed
8-entry `spa_dict`, and serves one reactive callback `update_visuals`
that, given the dropdown's selection list, produces four figures and the
(possibly normalized) dropdown value.

Modelling choices:
  * a dataframe is a `List` of records; a column value that pandas would
    hold as `NaN` (a SPA code missing from `spa_dict`) is `Option.none`;
  * `Series.unique().tolist()` is first-occurrence deduplication
    (`uniqueFirst`), which is what pandas documents (appearance order,
    not sorted);
  * `groupby(k).agg` is: the distinct keys (pandas sorts them; sorting is
    modelled with an insertion sort over a byte-wise string order), each
    paired with the aggregate over the rows having that key; pandas drops
    `NaN` keys, which here is `filterMap` dropping `none`;
  * `mean` over a group is exact rational arithmetic (`ℚ`), `sum` over the
    integer bed columns is `ℤ`;
  * `merge(..., how='left')` on the unique-keyed averages table is a
    lookup (`List.find?`) per boundary row, `none` when unmatched;
  * a plotly figure is identified with the dataframe handed to
    `px.choropleth_mapbox` / `px.bar`, since every claim is about that
    data, not about styling.
-/

/-- One row of the housing-inventory table after the `spa_dict` mapping of
line 37 (`df['SPA'] = df['SPA'].map(spa_dict)`): `spa` is `none` when the
raw code was not a key of `spa_dict`. -/
structure BedRecord where
  spa : Option String
  housingType : String
  utilizationRate : ℚ
  pitCount : ℤ
  totalBeds : ℤ
deriving DecidableEq, Repr

/-- One row of the housing-inventory CSV before name resolution: the raw
`SPA` code as a string (line 21 `df['SPA'].astype(str)`). -/
structure RawBedRecord where
  spa_code : String
  housingType : String
  utilizationRate : ℚ
  pitCount : ℤ
  totalBeds : ℤ
deriving DecidableEq, Repr

/-- One feature of `simplified_SPA.geojson` after the `spa_dict` mapping of
line 38; the geometry is kept abstract as a token. -/
structure GeoRow where
  spa : Option String
  geometry : String
deriving DecidableEq, Repr

/-- One row of `merged = spa_geo.merge(grouped, on='SPA', how='left')`
(line 126): a boundary row together with the looked-up mean utilization
rate, `none` when the left join found no match. -/
structure MergedRow where
  spa : Option String
  geometry : String
  utilizationRate : Option ℚ
deriving DecidableEq, Repr

/-- Lines 25-34: the fixed SPA-code → region-name table. A Python dict
lookup that misses yields a missing value (`.map` puts `NaN`), hence
`Option`. -/
def spa_dict (c : String) : Option String :=
  if c = "1" then some "Antelope Valley"
  else if c = "2" then some "San Fernando Valley"
  else if c = "3" then some "San Gabriel Valley"
  else if c = "4" then some "Metro Los Angeles"
  else if c = "5" then some "West Los Angeles"
  else if c = "6" then some "South Los Angeles"
  else if c = "7" then some "East Los Angeles"
  else if c = "8" then some "South Bay/Harbor"
  else none

/-- Line 37 applied to one CSV row: resolve the raw code through
`spa_dict`, keep the other columns. -/
def resolveRecord (r : RawBedRecord) : BedRecord :=
  { spa := spa_dict r.spa_code
  , housingType := r.housingType
  , utilizationRate := r.utilizationRate
  , pitCount := r.pitCount
  , totalBeds := r.totalBeds }

/-- Line 37, `df['SPA'] = df['SPA'].map(spa_dict)`, over the whole table. -/
def resolveRecords (rows : List RawBedRecord) : List BedRecord :=
  rows.map resolveRecord

/-- `Series.unique().tolist()`: the distinct values in order of first
appearance (pandas documents that `unique` does not sort). -/
def uniqueFirst {α : Type} [DecidableEq α] (xs : List α) : List α :=
  (xs.reverse.dedup).reverse

/-- Byte-wise lexicographic order on strings, used to model the sorted
group keys that pandas `groupby(sort=True)` produces. -/
def chListLe : List Char → List Char → Bool
  | [], _ => true
  | _ :: _, [] => false
  | a :: as, b :: bs => if a = b then chListLe as bs else decide (a.val ≤ b.val)

/-- String comparison for group-key sorting. -/
def strLe (a b : String) : Bool := chListLe a.toList b.toList

/-- Lexicographic comparison on (SPA, Housing Type) pairs, for the
two-column groupby of line 173. -/
def pairLe (a b : String × String) : Bool :=
  if a.1 = b.1 then strLe a.2 b.2 else strLe a.1 b.1

/-- Insert into a list kept ordered by `le`. -/
def insertSorted {α : Type} (le : α → α → Bool) (x : α) : List α → List α
  | [] => [x]
  | y :: ys => if le x y then x :: y :: ys else y :: insertSorted le x ys

/-- Insertion sort by `le`; models pandas' sorting of groupby keys. -/
def sortByLe {α : Type} (le : α → α → Bool) : List α → List α
  | [] => []
  | x :: xs => insertSorted le x (sortByLe le xs)

/-- The group keys of `rows.groupby('SPA')`: the distinct non-missing SPA
names, sorted (pandas drops `NaN` keys and sorts the remaining ones). -/
def regionKeys (rows : List BedRecord) : List String :=
  sortByLe strLe (uniqueFirst (rows.filterMap (fun r => r.spa)))

/-- The rows of one SPA group. -/
def regionRows (rows : List BedRecord) (s : String) : List BedRecord :=
  rows.filter (fun r => decide (r.spa = some s))

/-- `agg({'Utilization Rate': 'mean'})` for one SPA group. -/
def meanUtil (rows : List BedRecord) (s : String) : ℚ :=
  (((regionRows rows s).map (fun r => r.utilizationRate)).sum) /
    ((regionRows rows s).length : ℚ)

/-- Line 125: `grouped = df.groupby('SPA').agg({'Utilization Rate': 'mean'}).reset_index()`. -/
def grouped (rows : List BedRecord) : List (String × ℚ) :=
  (regionKeys rows).map (fun s => (s, meanUtil rows s))

/-- The left-join lookup of line 126 for one boundary row's key. -/
def lookupAvg (rows : List BedRecord) (spa : Option String) : Option ℚ :=
  spa.bind (fun s => ((grouped rows).find? (fun p => decide (p.1 = s))).map (fun p => p.2))

/-- Line 126: `merged = spa_geo.merge(grouped, left_on='SPA', right_on='SPA', how='left')`.
`grouped` has unique keys, so each boundary row yields exactly one merged
row; an unmatched row gets a missing utilization rate. -/
def merged (geo : List GeoRow) (rows : List BedRecord) : List MergedRow :=
  geo.map (fun g => { spa := g.spa, geometry := g.geometry, utilizationRate := lookupAvg rows g.spa })

/-- Line 118-119: `if 'ALL' in selected_values: selected_values = df['SPA'].unique().tolist()`. -/
def expandSelection (df : List BedRecord) (sel : List (Option String)) : List (Option String) :=
  if some "ALL" ∈ sel then uniqueFirst (df.map (fun r => r.spa)) else sel

/-- Line 122: `filtered_df = df[df['SPA'].isin(selected_values)] if selected_values else df`.
pandas `isin` matches `NaN` against a `NaN` in the value list, which is
plain `Option` membership here. -/
def filteredDf (df : List BedRecord) (sel : List (Option String)) : List BedRecord :=
  if sel = [] then df else df.filter (fun r => decide (r.spa ∈ sel))

/-- Line 127: `filtered_geo = merged[merged['SPA'].isin(selected_values)] if selected_values else merged`. -/
def filteredGeo (geo : List GeoRow) (df : List BedRecord) (sel : List (Option String)) : List MergedRow :=
  if sel = [] then merged geo df else (merged geo df).filter (fun g => decide (g.spa ∈ sel))

/-- The group keys of the two-column `groupby(['SPA', 'Housing Type'])` of
line 173 (rows whose SPA is missing are dropped, keys sorted). -/
def housingKeys (rows : List BedRecord) : List (String × String) :=
  sortByLe pairLe (uniqueFirst (rows.filterMap (fun r => r.spa.map (fun s => (s, r.housingType)))))

/-- The rows of one (SPA, Housing Type) group. -/
def housingRows (rows : List BedRecord) (s h : String) : List BedRecord :=
  rows.filter (fun r => decide (r.spa = some s) && decide (r.housingType = h))

/-- Mean utilization rate of one (SPA, Housing Type) group. -/
def meanUtilPair (rows : List BedRecord) (s h : String) : ℚ :=
  (((housingRows rows s h).map (fun r => r.utilizationRate)).sum) /
    ((housingRows rows s h).length : ℚ)

/-- Line 173: `housing_grouped = filtered_df.groupby(['SPA', 'Housing Type']).agg({'Utilization Rate': 'mean'}).reset_index()`. -/
def housing_grouped (rows : List BedRecord) : List (String × String × ℚ) :=
  (housingKeys rows).map (fun k => (k.1, k.2, meanUtilPair rows k.1 k.2))

/-- `agg({'PIT Count': 'sum'})` for one SPA group. -/
def pitSum (rows : List BedRecord) (s : String) : ℤ :=
  ((regionRows rows s).map (fun r => r.pitCount)).sum

/-- `agg({'Total Beds': 'sum'})` for one SPA group. -/
def totalSum (rows : List BedRecord) (s : String) : ℤ :=
  ((regionRows rows s).map (fun r => r.totalBeds)).sum

/-- Lines 211-212: `bed_grouped = filtered_df.groupby('SPA').agg({'PIT Count': 'sum', 'Total Beds': 'sum'}).reset_index()`
followed by `bed_grouped['Empty Beds'] = bed_grouped['Total Beds'] - bed_grouped['PIT Count']`. -/
def bed_grouped (rows : List BedRecord) : List (String × ℤ × ℤ) :=
  (regionKeys rows).map (fun s => (s, pitSum rows s, totalSum rows s))

/-- Lines 215-218: rename `PIT Count` to `Utilized Beds` and melt into the
long form (SPA, Bed Status, Bed Count); pandas `melt` stacks the whole
`Utilized Beds` column, then the whole `Empty Beds` column. -/
def bed_melted (rows : List BedRecord) : List (String × String × ℤ) :=
  (bed_grouped rows).map (fun p => (p.1, "Utilized Beds", p.2.1)) ++
    (bed_grouped rows).map (fun p => (p.1, "Empty Beds", p.2.2 - p.2.1))

/-- The five outputs of the callback (line 247): the dataframes behind the
map figure, the SPA-average bar figure, the housing-type bar figure and the
bed-count bar figure, plus the dropdown value written back. -/
structure UpdateResult where
  mapData : List MergedRow
  barData : List MergedRow
  housingData : List (String × String × ℚ)
  bedData : List (String × String × ℤ)
  dropdownValue : List (Option String)
deriving DecidableEq, Repr

/-- Lines 116-247, `update_visuals(selected_values)`: expand the `'ALL'`
sentinel, filter the bed records and the merged geo table by the expanded
selection, and build the four views; the (expanded) selection is returned
as the fifth output. The map and the SPA-average bar are both drawn from
`filtered_geo`, whose utilization column comes from grouping the full,
unfiltered `df`. -/
def update_visuals (df : List BedRecord) (geo : List GeoRow) (sel : List (Option String)) : UpdateResult :=
  { mapData := filteredGeo geo df (expandSelection df sel)
  , barData := filteredGeo geo df (expandSelection df sel)
  , housingData := housing_grouped (filteredDf df (expandSelection df sel))
  , bedData := bed_melted (filteredDf df (expandSelection df sel))
  , dropdownValue := expandSelection df sel }

/-- The eight region names of `spa_dict`, in the alphabetical order the
spec's round-trip property calls "the full sorted set of known region
names". -/
def knownRegionNamesSorted : List String :=
  ["Antelope Valley", "East Los Angeles", "Metro Los Angeles",
   "San Fernando Valley", "San Gabriel Valley", "South Bay/Harbor",
   "South Los Angeles", "West Los Angeles"]

/-! ### Concrete sample tables, used to instantiate the theorems below -/

/-- A sample resolved bed-records table with one record in Metro Los
Angeles and one in West Los Angeles. -/
def dfW : List BedRecord :=
  [⟨some "Metro Los Angeles", "ES", 80, 80, 100⟩,
   ⟨some "West Los Angeles", "TH", 90, 45, 50⟩]

/-- A sample boundary table: Metro Los Angeles has bed records, South
Bay/Harbor has none. -/
def geoW : List GeoRow :=
  [⟨some "Metro Los Angeles", "polyMetro"⟩,
   ⟨some "South Bay/Harbor", "polySouthBay"⟩]

/-- A sample raw CSV whose regions first appear in non-alphabetical order
(code 2 = San Fernando Valley before code 1 = Antelope Valley). -/
def rawC2 : List RawBedRecord :=
  [⟨"2", "ES", 70, 10, 20⟩, ⟨"1", "ES", 80, 5, 10⟩]

/-- A sample one-record table matching the spec scenario Total Beds=100,
PIT Count=80. -/
def dfC3 : List BedRecord :=
  [⟨some "Metro Los Angeles", "ES", 80, 80, 100⟩]

/-- A sample raw table with a single well-resolved record. -/
def rawC7 : List RawBedRecord := [⟨"1", "ES", 80, 5, 10⟩]

/-- A raw record whose SPA code "9" is outside the fixed lookup table. -/
def rBad : RawBedRecord := ⟨"9", "ES", 50, 1, 2⟩

/-- The merged row produced for the Metro Los Angeles boundary of `geoW`
over `dfW`. -/
def gW : MergedRow :=
  ⟨some "Metro Los Angeles", "polyMetro", lookupAvg dfW (some "Metro Los Angeles")⟩

/-! ### Basic lemmas about the list combinators of the embedding -/

theorem mem_uniqueFirst {α : Type} [DecidableEq α] (a : α) (xs : List α) :
    a ∈ uniqueFirst xs ↔ a ∈ xs := by
  simp [uniqueFirst, List.mem_reverse, List.mem_dedup]

theorem nodup_uniqueFirst {α : Type} [DecidableEq α] (xs : List α) :
    (uniqueFirst xs).Nodup := by
  simpa [uniqueFirst, List.nodup_reverse] using List.nodup_dedup xs.reverse

theorem mem_insertSorted {α : Type} (le : α → α → Bool) (a x : α) (l : List α) :
    a ∈ insertSorted le x l ↔ a = x ∨ a ∈ l := by
  induction l with
  | nil => simp [insertSorted]
  | cons y ys ih =>
      simp only [insertSorted]
      by_cases h : le x y
      · simp [h]
      · simp [h, ih]
        tauto

theorem mem_sortByLe {α : Type} (le : α → α → Bool) (a : α) (l : List α) :
    a ∈ sortByLe le l ↔ a ∈ l := by
  induction l with
  | nil => simp [sortByLe]
  | cons x xs ih => simp [sortByLe, mem_insertSorted, ih]

theorem mem_regionKeys (rows : List BedRecord) (s : String) :
    s ∈ regionKeys rows ↔ ∃ r ∈ rows, r.spa = some s := by
  simp [regionKeys, mem_sortByLe, mem_uniqueFirst, List.mem_filterMap]

theorem mem_housingKeys (rows : List BedRecord) (s h : String) :
    (s, h) ∈ housingKeys rows ↔ ∃ r ∈ rows, r.spa = some s ∧ r.housingType = h := by
  simp only [housingKeys, mem_sortByLe, mem_uniqueFirst, List.mem_filterMap]
  constructor
  · rintro ⟨r, hr, hmap⟩
    rcases Option.map_eq_some'.mp hmap with ⟨a, ha, heq⟩
    refine ⟨r, hr, ?_, ?_⟩
    · rw [ha, (Prod.mk.injEq _ _ _ _).mp heq |>.1]
    · exact ((Prod.mk.injEq _ _ _ _).mp heq).2
  · rintro ⟨r, hr, hspa, hht⟩
    exact ⟨r, hr, by simp [hspa, hht]⟩

theorem find?_keyedMap {β : Type} (keys : List String) (g : String → β) (s : String) :
    ((keys.map (fun k => (k, g k))).find? (fun p => decide (p.1 = s))) =
      if s ∈ keys then some (s, g s) else none := by
  induction keys with
  | nil => simp
  | cons k ks ih =>
      by_cases hk : k = s
      · subst hk
        simp [List.find?]
      · have hd : decide (k = s) = false := decide_eq_false hk
        simp only [List.map_cons, List.find?, hd]
        rw [ih]
        simp [List.mem_cons, Ne.symm hk]

theorem lookupAvg_eq (rows : List BedRecord) (s : String) :
    lookupAvg rows (some s) =
      if s ∈ regionKeys rows then some (meanUtil rows s) else none := by
  simp only [lookupAvg, Option.bind_some, grouped, find?_keyedMap]
  by_cases h : s ∈ regionKeys rows <;> simp [h]

theorem filter_of_filter_mem (df : List BedRecord) (sel : List (Option String))
    (s : String) (hs : some s ∈ sel) :
    (df.filter (fun r => decide (r.spa ∈ sel))).filter (fun r => decide (r.spa = some s)) =
      df.filter (fun r => decide (r.spa = some s)) := by
  induction df with
  | nil => rfl
  | cons r rs ih =>
      by_cases hmem : r.spa ∈ sel
      · by_cases hr : r.spa = some s
        · simp only [List.filter, decide_eq_true hmem, decide_eq_true hr, ih]
        · simp only [List.filter, decide_eq_true hmem, decide_eq_false hr, ih]
      · by_cases hr : r.spa = some s
        · exact absurd (by rw [hr]; exact hs) hmem
        · simp only [List.filter, decide_eq_false hmem, decide_eq_false hr, ih]

theorem expandSelection_no_sentinel (df : List BedRecord) (sel : List (Option String))
    (h : some "ALL" ∉ sel) : expandSelection df sel = sel := by
  simp [expandSelection, h]

theorem expandSelection_of_sentinel (df : List BedRecord) (sel : List (Option String))
    (h : some "ALL" ∈ sel) :
    expandSelection df sel = uniqueFirst (df.map (fun r => r.spa)) := by
  simp [expandSelection, h]

/-! ### Claim theorems -/

/-- C1: for every selection, the map and the regional-average bar are drawn
from the same filtered merge of the boundary table, every row shown is a row
of the full-dataset merge, and the utilization value attached to each shown
row is the full-dataset per-region mean (`lookupAvg df`), which does not
depend on the selection: the filter only restricts which regions appear. -/
theorem C1_region_averages_independent_of_filter
    (df : List BedRecord) (geo : List GeoRow) (sel : List (Option String)) :
    (update_visuals df geo sel).mapData = (update_visuals df geo sel).barData ∧
    ∀ g ∈ (update_visuals df geo sel).barData,
      g ∈ merged geo df ∧ g.utilizationRate = lookupAvg df g.spa := by
  refine ⟨rfl, ?_⟩
  intro g hg
  have hg2 : g ∈ merged geo df := by
    show g ∈ merged geo df
    have hg1 : g ∈ filteredGeo geo df (expandSelection df sel) := hg
    unfold filteredGeo at hg1
    split at hg1
    · exact hg1
    · exact (List.mem_filter.mp hg1).1
  refine ⟨hg2, ?_⟩
  rcases List.mem_map.mp hg2 with ⟨row, _, hEq⟩
  rw [← hEq]

/-- Witness for C1 at the sample tables with the empty selection. -/
theorem C1_witness : gW ∈ merged geoW dfW ∧ gW.utilizationRate = lookupAvg dfW gW.spa :=
  (C1_region_averages_independent_of_filter dfW geoW []).2 gW (List.mem_cons_self _ _)

/-- C2 counterexample: with the `'ALL'` sentinel selected, the normalized
control value is `df['SPA'].unique().tolist()`, the distinct region names in
first-appearance order; on a dataset whose regions first appear out of
alphabetical order it is not the sorted list of the eight known region
names, so the claim as stated fails. -/
theorem C2_counterexample :
    (update_visuals (resolveRecords rawC2) geoW [some "ALL"]).dropdownValue ≠
      knownRegionNamesSorted.map some ∧
    (update_visuals (resolveRecords rawC2) geoW [some "ALL"]).dropdownValue =
      [some "San Fernando Valley", some "Antelope Valley"] := by
  constructor
  · decide
  · decide

/-- C2 (amended): for every selection containing the `'ALL'` sentinel, the
fifth output is the list of distinct region names appearing in the Bed
Records, in order of first appearance, without duplicates and with no
sentinel remaining; it covers exactly the regions present in the data
rather than the full sorted list of known names. -/
theorem C2_sentinel_expansion_normalizes
    (raw : List RawBedRecord) (geo : List GeoRow) (sel : List (Option String))
    (hALL : some "ALL" ∈ sel) :
    (update_visuals (resolveRecords raw) geo sel).dropdownValue =
      uniqueFirst ((resolveRecords raw).map (fun r => r.spa)) ∧
    some "ALL" ∉ (update_visuals (resolveRecords raw) geo sel).dropdownValue ∧
    (∀ x, x ∈ (update_visuals (resolveRecords raw) geo sel).dropdownValue ↔
      ∃ r ∈ resolveRecords raw, r.spa = x) ∧
    ((update_visuals (resolveRecords raw) geo sel).dropdownValue).Nodup := by
  have hdd : (update_visuals (resolveRecords raw) geo sel).dropdownValue =
      uniqueFirst ((resolveRecords raw).map (fun r => r.spa)) :=
    expandSelection_of_sentinel _ sel hALL
  have hne : ∀ c : String, spa_dict c ≠ some "ALL" := by
    intro c
    unfold spa_dict
    split_ifs <;> simp
  refine ⟨hdd, ?_, ?_, ?_⟩
  · rw [hdd]
    intro hmem
    rcases List.mem_map.mp ((mem_uniqueFirst _ _).mp hmem) with ⟨r, hr, hEq⟩
    rcases List.mem_map.mp hr with ⟨r0, _, hEq0⟩
    apply hne r0.spa_code
    rw [show spa_dict r0.spa_code = (resolveRecord r0).spa from rfl, hEq0, hEq]
  · intro x
    rw [hdd, mem_uniqueFirst]
    simp [List.mem_map]
  · rw [hdd]
    exact nodup_uniqueFirst _

/-- Witness for C2's amended theorem: on the sample raw table no sentinel
remains in the written-back control value. -/
theorem C2_witness :
    some "ALL" ∉ (update_visuals (resolveRecords rawC2) geoW [some "ALL"]).dropdownValue :=
  (C2_sentinel_expansion_normalizes rawC2 geoW [some "ALL"] (by decide)).2.1

/-- C3: for every selection, any region with at least one selection-filtered
record contributes to the long-form bed-count relation a `"Utilized Beds"`
row holding the summed PIT count and an `"Empty Beds"` row holding summed
total beds minus summed PIT count. -/
theorem C3_bed_counts_melted
    (df : List BedRecord) (geo : List GeoRow) (sel : List (Option String)) (s : String)
    (h : ∃ r ∈ filteredDf df (expandSelection df sel), r.spa = some s) :
    (s, "Utilized Beds", pitSum (filteredDf df (expandSelection df sel)) s) ∈
      (update_visuals df geo sel).bedData ∧
    (s, "Empty Beds",
        totalSum (filteredDf df (expandSelection df sel)) s -
          pitSum (filteredDf df (expandSelection df sel)) s) ∈
      (update_visuals df geo sel).bedData := by
  have hk : s ∈ regionKeys (filteredDf df (expandSelection df sel)) :=
    (mem_regionKeys _ s).mpr h
  constructor
  · show _ ∈ bed_melted (filteredDf df (expandSelection df sel))
    unfold bed_melted bed_grouped
    refine List.mem_append_left _ ?_
    rw [List.map_map]
    exact List.mem_map.mpr ⟨s, hk, rfl⟩
  · show _ ∈ bed_melted (filteredDf df (expandSelection df sel))
    unfold bed_melted bed_grouped
    refine List.mem_append_right _ ?_
    rw [List.map_map]
    exact List.mem_map.mpr ⟨s, hk, rfl⟩

/-- Witness for C3, the spec scenario: a single record with Total Beds=100
and PIT Count=80 contributes Utilized=80 and Empty=20 for its region. -/
theorem C3_witness :
    ("Metro Los Angeles", "Utilized Beds", (80 : ℤ)) ∈
      (update_visuals dfC3 geoW [some "Metro Los Angeles"]).bedData ∧
    ("Metro Los Angeles", "Empty Beds", (20 : ℤ)) ∈
      (update_visuals dfC3 geoW [some "Metro Los Angeles"]).bedData := by
  have h := C3_bed_counts_melted dfC3 geoW [some "Metro Los Angeles"] "Metro Los Angeles"
    (by decide)
  constructor
  · have h1 := h.1
    rwa [show pitSum (filteredDf dfC3 (expandSelection dfC3 [some "Metro Los Angeles"]))
        "Metro Los Angeles" = (80 : ℤ) from by decide] at h1
  · have h2 := h.2
    rwa [show totalSum (filteredDf dfC3 (expandSelection dfC3 [some "Metro Los Angeles"]))
          "Metro Los Angeles" -
        pitSum (filteredDf dfC3 (expandSelection dfC3 [some "Metro Los Angeles"]))
          "Metro Los Angeles" = (20 : ℤ) from by decide] at h2

/-- C4: for every non-empty subset S of region names (without the
sentinel), the bed-count view is the melt of the S-filtered table, and for
each region s in S the filtered per-region PIT and total-bed sums coincide
with the sums computed over the full unfiltered dataset for s. -/
theorem C4_filtered_sums_agree_with_unfiltered
    (df : List BedRecord) (geo : List GeoRow) (S : List String) (s : String)
    (hne : S ≠ []) (hALL : "ALL" ∉ S) (hs : s ∈ S) :
    (update_visuals df geo (S.map some)).bedData =
      bed_melted (df.filter (fun r => decide (r.spa ∈ S.map some))) ∧
    pitSum (df.filter (fun r => decide (r.spa ∈ S.map some))) s = pitSum df s ∧
    totalSum (df.filter (fun r => decide (r.spa ∈ S.map some))) s = totalSum df s := by
  have hnsent : some "ALL" ∉ S.map some := by
    intro hmem
    rcases List.mem_map.mp hmem with ⟨a, ha, hEq⟩
    exact hALL (Option.some.inj hEq ▸ ha)
  have hexp : expandSelection df (S.map some) = S.map some :=
    expandSelection_no_sentinel df _ hnsent
  have hnil : S.map some ≠ [] := by
    intro hmem
    exact hne (List.map_eq_nil_iff.mp hmem)
  have hsome : some s ∈ S.map some := List.mem_map_of_mem some hs
  refine ⟨?_, ?_, ?_⟩
  · show bed_melted (filteredDf df (expandSelection df (S.map some))) = _
    rw [hexp]
    unfold filteredDf
    rw [if_neg hnil]
  · unfold pitSum regionRows
    rw [filter_of_filter_mem df (S.map some) s hsome]
  · unfold totalSum regionRows
    rw [filter_of_filter_mem df (S.map some) s hsome]

/-- Witness for C4 at the sample table and S = set of one region. -/
theorem C4_witness :
    pitSum (dfW.filter (fun r => decide (r.spa ∈ (["Metro Los Angeles"]).map some)))
        "Metro Los Angeles" = pitSum dfW "Metro Los Angeles" ∧
    totalSum (dfW.filter (fun r => decide (r.spa ∈ (["Metro Los Angeles"]).map some)))
        "Metro Los Angeles" = totalSum dfW "Metro Los Angeles" :=
  ⟨(C4_filtered_sums_agree_with_unfiltered dfW geoW ["Metro Los Angeles"] "Metro Los Angeles"
      (by decide) (by decide) (by decide)).2.1,
   (C4_filtered_sums_agree_with_unfiltered dfW geoW ["Metro Los Angeles"] "Metro Los Angeles"
      (by decide) (by decide) (by decide)).2.2⟩

/-- C5: with the empty (falsy) selection, filtering is skipped: every
selection-dependent view is computed from the full dataset (full merge for
map and bar, full-table housing and bed aggregations), and the empty
selection is echoed back. -/
theorem C5_empty_selection_uses_full_dataset (df : List BedRecord) (geo : List GeoRow) :
    (update_visuals df geo []).housingData = housing_grouped df ∧
    (update_visuals df geo []).bedData = bed_melted df ∧
    (update_visuals df geo []).mapData = merged geo df ∧
    (update_visuals df geo []).barData = merged geo df ∧
    (update_visuals df geo []).dropdownValue = [] := by
  refine ⟨?_, ?_, ?_, ?_, ?_⟩ <;>
    simp [update_visuals, expandSelection, filteredDf, filteredGeo]

/-- C6: for every selection, the housing-type view contains exactly one
entry per (region, housing type) pair occurring in the selection-filtered
records, and that entry's value is the mean utilization rate of the
filtered rows of that pair. -/
theorem C6_housing_breakdown_characterization
    (df : List BedRecord) (geo : List GeoRow) (sel : List (Option String))
    (s h : String) (v : ℚ) :
    (s, h, v) ∈ (update_visuals df geo sel).housingData ↔
      ((∃ r ∈ filteredDf df (expandSelection df sel), r.spa = some s ∧ r.housingType = h) ∧
        v = meanUtilPair (filteredDf df (expandSelection df sel)) s h) := by
  show (s, h, v) ∈ housing_grouped (filteredDf df (expandSelection df sel)) ↔ _
  unfold housing_grouped
  rw [List.mem_map]
  constructor
  · rintro ⟨⟨k1, k2⟩, hk, hEq⟩
    simp only [Prod.mk.injEq] at hEq
    obtain ⟨rfl, rfl, hv⟩ := hEq
    exact ⟨(mem_housingKeys _ k1 k2).mp hk, hv.symm⟩
  · rintro ⟨hex, rfl⟩
    exact ⟨(s, h), (mem_housingKeys _ s h).mpr hex, rfl⟩

/-- C7: the resolver maps codes "1".."8" to the eight fixed region names
and every other code to a missing value; a record with an unresolved code
changes none of the region-keyed aggregations (region averages,
housing-type breakdown, bed counts), and under a normal selection no row
with a missing region reaches the map/bar data. -/
theorem C7_resolver_table_and_exclusion :
    (spa_dict "1" = some "Antelope Valley" ∧
     spa_dict "2" = some "San Fernando Valley" ∧
     spa_dict "3" = some "San Gabriel Valley" ∧
     spa_dict "4" = some "Metro Los Angeles" ∧
     spa_dict "5" = some "West Los Angeles" ∧
     spa_dict "6" = some "South Los Angeles" ∧
     spa_dict "7" = some "East Los Angeles" ∧
     spa_dict "8" = some "South Bay/Harbor") ∧
    (∀ c : String, c ∉ ["1", "2", "3", "4", "5", "6", "7", "8"] → spa_dict c = none) ∧
    (∀ (raw : List RawBedRecord) (r : RawBedRecord), spa_dict r.spa_code = none →
      grouped (resolveRecords (raw ++ [r])) = grouped (resolveRecords raw) ∧
      housing_grouped (resolveRecords (raw ++ [r])) = housing_grouped (resolveRecords raw) ∧
      bed_melted (resolveRecords (raw ++ [r])) = bed_melted (resolveRecords raw)) ∧
    (∀ (df : List BedRecord) (geo : List GeoRow) (sel : List (Option String)),
      sel ≠ [] → (∀ x ∈ sel, x ≠ none) → some "ALL" ∉ sel →
      ∀ g ∈ (update_visuals df geo sel).mapData, g.spa ≠ none) := by
  refine ⟨by decide, ?_, ?_, ?_⟩
  · intro c hc
    simp only [List.mem_cons, List.mem_singleton, not_or] at hc
    obtain ⟨h1, h2, h3, h4, h5, h6, h7, h8, -⟩ := hc
    unfold spa_dict
    rw [if_neg h1, if_neg h2, if_neg h3, if_neg h4, if_neg h5, if_neg h6, if_neg h7, if_neg h8]
  · intro raw r hr
    have happ : resolveRecords (raw ++ [r]) = resolveRecords raw ++ [resolveRecord r] := by
      simp [resolveRecords]
    have hnone : (resolveRecord r).spa = none := hr
    have hrows : ∀ s, regionRows (resolveRecords raw ++ [resolveRecord r]) s =
        regionRows (resolveRecords raw) s := by
      intro s
      unfold regionRows
      rw [List.filter_append]
      simp [List.filter, hnone]
    have hkeys : regionKeys (resolveRecords raw ++ [resolveRecord r]) =
        regionKeys (resolveRecords raw) := by
      unfold regionKeys
      rw [List.filterMap_append]
      simp [List.filterMap, hnone]
    have hhrows : ∀ s h, housingRows (resolveRecords raw ++ [resolveRecord r]) s h =
        housingRows (resolveRecords raw) s h := by
      intro s h
      unfold housingRows
      rw [List.filter_append]
      simp [List.filter, hnone]
    have hhkeys : housingKeys (resolveRecords raw ++ [resolveRecord r]) =
        housingKeys (resolveRecords raw) := by
      unfold housingKeys
      rw [List.filterMap_append]
      simp [List.filterMap, hnone]
    refine ⟨?_, ?_, ?_⟩
    · unfold grouped
      rw [happ, hkeys]
      refine List.map_congr_left ?_
      intro s _
      unfold meanUtil
      rw [hrows]
    · unfold housing_grouped
      rw [happ, hhkeys]
      refine List.map_congr_left ?_
      intro k _
      unfold meanUtilPair
      rw [hhrows]
    · unfold bed_melted bed_grouped
      rw [happ, hkeys]
      have hp : ∀ s, pitSum (resolveRecords raw ++ [resolveRecord r]) s =
          pitSum (resolveRecords raw) s := by
        intro s; unfold pitSum; rw [hrows]
      have ht : ∀ s, totalSum (resolveRecords raw ++ [resolveRecord r]) s =
          totalSum (resolveRecords raw) s := by
        intro s; unfold totalSum; rw [hrows]
      rw [List.map_map, List.map_map, List.map_map, List.map_map]
      have hf1 : ∀ s ∈ regionKeys (resolveRecords raw),
          ((fun p => (p.1, "Utilized Beds", p.2.1)) ∘
            fun s => (s, pitSum (resolveRecords raw ++ [resolveRecord r]) s,
              totalSum (resolveRecords raw ++ [resolveRecord r]) s)) s =
          ((fun p => (p.1, "Utilized Beds", p.2.1)) ∘
            fun s => (s, pitSum (resolveRecords raw) s, totalSum (resolveRecords raw) s)) s := by
        intro s _
        simp [hp s]
      have hf2 : ∀ s ∈ regionKeys (resolveRecords raw),
          ((fun p => (p.1, "Empty Beds", p.2.2 - p.2.1)) ∘
            fun s => (s, pitSum (resolveRecords raw ++ [resolveRecord r]) s,
              totalSum (resolveRecords raw ++ [resolveRecord r]) s)) s =
          ((fun p => (p.1, "Empty Beds", p.2.2 - p.2.1)) ∘
            fun s => (s, pitSum (resolveRecords raw) s, totalSum (resolveRecords raw) s)) s := by
        intro s _
        simp [hp s, ht s]
      rw [List.map_congr_left hf1, List.map_congr_left hf2]
  · intro df geo sel hne hnn hALL g hg
    have hexp := expandSelection_no_sentinel df sel hALL
    have hg1 : g ∈ filteredGeo geo df (expandSelection df sel) := hg
    rw [hexp] at hg1
    unfold filteredGeo at hg1
    rw [if_neg hne] at hg1
    exact hnn g.spa (of_decide_eq_true (List.mem_filter.mp hg1).2)

/-- Witness for C7: code "9" resolves to a missing value and appending a
code-"9" record leaves the region-average aggregation unchanged. -/
theorem C7_witness :
    spa_dict "9" = none ∧
    grouped (resolveRecords (rawC7 ++ [rBad])) = grouped (resolveRecords rawC7) :=
  ⟨C7_resolver_table_and_exclusion.2.1 "9" (by decide),
   (C7_resolver_table_and_exclusion.2.2.1 rawC7 rBad (by decide)).1⟩

/-- C8: the update is a pure function of the loaded tables and the
selection: two invocations with the same selection over the same tables
yield identical figure data and identical normalized control values. -/
theorem C8_update_deterministic (df : List BedRecord) (geo : List GeoRow)
    (sel1 sel2 : List (Option String)) (h : sel1 = sel2) :
    update_visuals df geo sel1 = update_visuals df geo sel2 := by
  rw [h]

/-- Witness for C8 at the sample tables. -/
theorem C8_witness :
    update_visuals dfW geoW [some "Metro Los Angeles"] =
      update_visuals dfW geoW [some "Metro Los Angeles"] :=
  C8_update_deterministic dfW geoW _ _ rfl

/-- C9: when the selection does not contain the `'ALL'` sentinel, the fifth
output of the update is the input selection unchanged. -/
theorem C9_selection_echoed_unchanged (df : List BedRecord) (geo : List GeoRow)
    (sel : List (Option String)) (h : some "ALL" ∉ sel) :
    (update_visuals df geo sel).dropdownValue = sel :=
  expandSelection_no_sentinel df sel h

/-- Witness for C9 at a concrete sentinel-free selection. -/
theorem C9_witness :
    (update_visuals dfW geoW [some "Metro Los Angeles"]).dropdownValue =
      [some "Metro Los Angeles"] :=
  C9_selection_echoed_unchanged dfW geoW [some "Metro Los Angeles"] (by decide)

/-- C10: the regional-average bar (and map) data is the filtered geo-merge:
every shown row descends from a boundary row (so a region with bed records
but no boundary row never appears) and lies in the selection, while every
selected boundary region with no bed records appears with a missing
utilization value. -/
theorem C10_bar_built_from_geo_merge
    (df : List BedRecord) (geo : List GeoRow) (sel : List (Option String)) :
    (∀ g ∈ (update_visuals df geo sel).barData,
       (∃ row ∈ geo, row.spa = g.spa ∧ row.geometry = g.geometry) ∧
       (expandSelection df sel = [] ∨ g.spa ∈ expandSelection df sel)) ∧
    (∀ row ∈ geo, ∀ s : String, row.spa = some s →
       (expandSelection df sel = [] ∨ some s ∈ expandSelection df sel) →
       (∀ r ∈ df, r.spa ≠ some s) →
       ∃ g ∈ (update_visuals df geo sel).barData,
         g.spa = some s ∧ g.utilizationRate = none) := by
  constructor
  · intro g hg
    have hg1 : g ∈ filteredGeo geo df (expandSelection df sel) := hg
    unfold filteredGeo at hg1
    by_cases hE : expandSelection df sel = []
    · rw [if_pos hE] at hg1
      rcases List.mem_map.mp hg1 with ⟨row, hrow, hEq⟩
      exact ⟨⟨row, hrow, by rw [← hEq], by rw [← hEq]⟩, Or.inl hE⟩
    · rw [if_neg hE] at hg1
      rcases List.mem_filter.mp hg1 with ⟨hgm, hgs⟩
      rcases List.mem_map.mp hgm with ⟨row, hrow, hEq⟩
      exact ⟨⟨row, hrow, by rw [← hEq], by rw [← hEq]⟩, Or.inr (of_decide_eq_true hgs)⟩
  · intro row hrow s hspa hsel hnorec
    have hnone : lookupAvg df (some s) = none := by
      rw [lookupAvg_eq, if_neg]
      intro hk
      rcases (mem_regionKeys df s).mp hk with ⟨r, hr, hr2⟩
      exact hnorec r hr hr2
    have hmem : (⟨row.spa, row.geometry, lookupAvg df row.spa⟩ : MergedRow) ∈ merged geo df :=
      List.mem_map_of_mem _ hrow
    rw [hspa] at hmem
    refine ⟨⟨some s, row.geometry, lookupAvg df (some s)⟩, ?_, rfl, hnone⟩
    show _ ∈ filteredGeo geo df (expandSelection df sel)
    unfold filteredGeo
    by_cases hE : expandSelection df sel = []
    · rw [if_pos hE]
      exact hmem
    · rw [if_neg hE]
      rcases hsel with h1 | hIn
      · exact absurd h1 hE
      · exact List.mem_filter.mpr ⟨hmem, decide_eq_true hIn⟩

/-- Witness for C10: the South Bay/Harbor boundary has no bed records in
the sample table yet appears in the bar data with a missing value. -/
theorem C10_witness :
    ∃ g ∈ (update_visuals dfW geoW [some "South Bay/Harbor"]).barData,
      g.spa = some "South Bay/Harbor" ∧ g.utilizationRate = none :=
  (C10_bar_built_from_geo_merge dfW geoW [some "South Bay/Harbor"]).2
    ⟨some "South Bay/Harbor", "polySouthBay"⟩ (by decide)
    "South Bay/Harbor" rfl (Or.inr (by decide)) (by decide)
